import Mathlib

/-
Verification of the speech-to-video pipeline in src/main.py.

Embedding conventions:
- Python strings are modelled as lists of Unicode code points (List Nat);
  `encode` turns a Lean string literal into that representation. The
  character classes of the regular expression fragment used by the code
  (word characters, whitespace) and str.lower are modelled exactly on a
  documented fragment of Unicode: all of ASCII (including the separator
  control characters U+001C-001F, which Python classifies as whitespace),
  the remaining Python whitespace code points (U+0085, U+00A0 and the
  Unicode space characters), and the letters U+00E9 (e with acute) and
  U+0130 (capital I with dot above) together with U+0307 (combining dot
  above), the mark that lowercasing U+0130 produces. Lowercasing is
  string-valued (pyLowerChar maps one code point to a list of code points)
  because str.lower maps U+0130 to the two code points U+0069 U+0307.
  Code points outside this fragment appear in no statement below: theorems
  quantified over all strings are stated for ASCII inputs, on which the
  fragment is exact, and concrete counterexamples use modelled code points
  only.
- clean_text mirrors main.py lines 70-73:
  re.sub removes every character outside word/space classes, then strip,
  then lower, then the first whitespace-delimited token (or the empty list
  when the cleaned text is empty, since the empty string is falsy).
- VIDEO_MAPPING mirrors the dict at lines 21-25 (paths relative to BASE_DIR);
  dictLookup models Python dict key lookup: exact key equality, first match.
- show_results mirrors lines 131-144: a matched token plays its video, an
  unmatched one is reported together with the list of registry keys.
- process_audio mirrors lines 48-62: the audio bytes are written to a
  temporary file and the cached model pipeline is invoked on that file
  unconditionally (there is no decode step before the model call); the
  pipeline call is abstracted as a transcriber function, and modelInvoked
  records that the call happened; any exception in the block yields None.
- main_process mirrors lines 117-125: the recording is processed when its
  bytes are truthy (non-empty), then the upload is processed when present,
  overwriting result_text; displayResults mirrors lines 128-129, where a
  falsy result (None or the empty string) skips show_results.
- load_whisper_model mirrors lines 33-46 together with the documented
  semantics of the st.cache_resource decorator: a successful return value
  is cached for later calls, while an exception leaves the cache empty; on
  failure the code shows an error and st.stop halts the current run.
- startup_check mirrors the verification loop at lines 27-31, which raises
  at the first registry entry whose file does not exist.
-/

/-- Word characters of the regex class \w (alphanumeric per str.isalnum,
plus underscore) on the modelled fragment: ASCII digits, letters and the
underscore (code 95), plus the modelled non-ASCII letters U+00E9 (233) and
U+0130 (304). U+0307 (combining dot above, category Mn) is not
alphanumeric in Python and so is not a word character. -/
def isWordChar (n : Nat) : Bool :=
  (decide (48 ≤ n) && decide (n ≤ 57)) || (decide (65 ≤ n) && decide (n ≤ 90)) ||
    (decide (97 ≤ n) && decide (n ≤ 122)) || decide (n = 95) ||
    decide (n = 233) || decide (n = 304)

/-- Whitespace as Python classifies it in the regex class \s and in
str.strip and str.split: tab through carriage return (9-13), the separator
controls U+001C-001F and the space (28-32), next line U+0085 (133),
no-break space U+00A0 (160), ogham space U+1680 (5760), the spaces
U+2000-200A (8192-8202), line and paragraph separators U+2028 and U+2029,
narrow no-break space U+202F (8239), mathematical space U+205F (8287) and
ideographic space U+3000 (12288). -/
def isSpaceChar (n : Nat) : Bool :=
  (decide (9 ≤ n) && decide (n ≤ 13)) || (decide (28 ≤ n) && decide (n ≤ 32)) ||
    decide (n = 133) || decide (n = 160) || decide (n = 5760) ||
    (decide (8192 ≤ n) && decide (n ≤ 8202)) || decide (n = 8232) ||
    decide (n = 8233) || decide (n = 8239) || decide (n = 8287) || decide (n = 12288)

/-- Model of str.lower on the fragment, one code point to the list of code
points of its lowercase form: ASCII uppercase letters move down by 32,
U+0130 has the special full lowering to U+0069 followed by U+0307, and
every other modelled code point is its own lowercase. -/
def pyLowerChar (n : Nat) : List Nat :=
  if 65 ≤ n ∧ n ≤ 90 then [n + 32]
  else if n = 304 then [105, 775]
  else [n]

/-- Model of str.strip with no arguments: whitespace removed from both ends. -/
def pyStrip (l : List Nat) : List Nat :=
  ((l.dropWhile isSpaceChar).reverse.dropWhile isSpaceChar).reverse

/-- First token of str.split with no arguments: leading whitespace dropped,
then the maximal run of non-whitespace characters. -/
def pySplitFirst (l : List Nat) : List Nat :=
  (l.dropWhile isSpaceChar).takeWhile fun n => !isSpaceChar n

/-- clean_text from main.py lines 70-73: remove characters outside word and
space classes, strip, lower, and keep the first whitespace-delimited token;
a falsy (empty) cleaned text yields the empty string. -/
def clean_text (s : List Nat) : List Nat :=
  let cleaned := s.filter fun n => isWordChar n || isSpaceChar n
  let lowered := (pyStrip cleaned).flatMap pyLowerChar
  if lowered.isEmpty then [] else pySplitFirst lowered

/-- Code points of a Lean string literal, for readable statements. -/
def encode (s : String) : List Nat := s.data.map Char.toNat

/-- VIDEO_MAPPING from main.py lines 21-25, as an association list with the
same key order; values are the resource paths relative to BASE_DIR. -/
def VIDEO_MAPPING : List (List Nat × List Nat) :=
  [(encode "hello", encode "videos/hello.mp4"),
   (encode "yes", encode "videos/yes.mp4"),
   (encode "no", encode "videos/no.mp4")]

/-- Python dict key lookup over an association list: exact key equality,
first match wins. -/
def dictLookup (t : List Nat) : List (List Nat × List Nat) → Option (List Nat)
  | [] => none
  | p :: rest => if p.1 = t then some p.2 else dictLookup t rest

/-- Membership test and lookup of a token in VIDEO_MAPPING, modelling the
expressions `text in VIDEO_MAPPING` and `VIDEO_MAPPING[text]` in
show_results (main.py lines 135-136). -/
def resolveCommand (t : List Nat) : Option (List Nat) :=
  dictLookup t VIDEO_MAPPING

/-- Terminal outcome of show_results (main.py lines 131-144). -/
inductive ShowOutcome where
  | matched (token path : List Nat)
  | unmatched (token : List Nat) (available : List (List Nat))
  deriving DecidableEq, Repr

/-- show_results from main.py lines 131-144: an exact registry key plays its
video; otherwise the warning branch lists the registry keys. -/
def show_results (text : List Nat) : ShowOutcome :=
  match resolveCommand text with
  | some path => ShowOutcome.matched text path
  | none => ShowOutcome.unmatched text (VIDEO_MAPPING.map Prod.fst)

/-- Outcome of the model pipeline call inside process_audio: the emitted
text, or any exception raised during the call (including decode failures
on malformed audio, which happen inside the pipeline). -/
inductive TranscribeOutcome where
  | ok (text : List Nat)
  | err
  deriving DecidableEq, Repr

/-- Observable trace of one process_audio call: whether the model pipeline
was invoked for the request, and the returned value (None on exception). -/
structure ProcessTrace where
  modelInvoked : Bool
  result : Option (List Nat)
  deriving DecidableEq, Repr

/-- process_audio from main.py lines 48-62: the bytes are written to a
temporary file and the model pipeline is invoked on it unconditionally;
on success the text is passed through clean_text, and any exception is
caught by the blanket handler, which returns None. -/
def process_audio (transcribe : List Nat → TranscribeOutcome) (audioBytes : List Nat) :
    ProcessTrace :=
  { modelInvoked := true
    result :=
      match transcribe audioBytes with
      | TranscribeOutcome.ok text => some (clean_text text)
      | TranscribeOutcome.err => none }

/-- Lines 128-129 of main.py: show_results runs only when result_text is
truthy, so both None and the empty string display nothing. -/
def displayResults : Option (List Nat) → Option ShowOutcome
  | some t => if t.isEmpty then none else some (show_results t)
  | none => none

/-- Input origins of main (main.py lines 103-115). -/
inductive Origin where
  | recording
  | upload
  deriving DecidableEq, Repr

/-- Input processing of main, lines 117-125: result_text starts as None; a
truthy (non-empty) recording is processed first, then a supplied upload is
processed and its result overwrites result_text. Returns the origins that
were processed, in order, and the final result_text. -/
def main_process (audioBytes audioFile : Option (List Nat))
    (transcribe : List Nat → TranscribeOutcome) :
    List Origin × Option (List Nat) :=
  let start : List Origin × Option (List Nat) := ([], none)
  let afterRec :=
    match audioBytes with
    | some b =>
      if b.isEmpty then start
      else ([Origin.recording], (process_audio transcribe b).result)
    | none => start
  match audioFile with
  | some f => (afterRec.1 ++ [Origin.upload], (process_audio transcribe f).result)
  | none => afterRec

/-- Result of one attempted model construction inside load_whisper_model. -/
inductive LoadOutcome where
  | ok (handle : Nat)
  | fail
  deriving DecidableEq, Repr

/-- Cache kept by the st.cache_resource decorator on load_whisper_model:
only a successfully returned handle is stored. -/
structure CacheState where
  cached : Option Nat
  deriving DecidableEq, Repr

/-- What one script run observes from load_whisper_model: a model handle,
or the halt of the run (st.stop after the error is shown). -/
inductive RunResult where
  | handle : Nat → RunResult
  | stopped
  deriving DecidableEq, Repr

/-- load_whisper_model from main.py lines 33-46 under st.cache_resource:
a cached handle is returned without reconstruction; otherwise the
constructor runs, a success is cached and returned, and a failure shows an
error and halts the current run (st.stop) without caching anything. -/
def load_whisper_model (construct : LoadOutcome) (st : CacheState) :
    RunResult × CacheState :=
  match st.cached with
  | some h => (RunResult.handle h, st)
  | none =>
    match construct with
    | LoadOutcome.ok h => (RunResult.handle h, { cached := some h })
    | LoadOutcome.fail => (RunResult.stopped, st)

/-- Verification loop at main.py lines 27-31, run at import time before any
request is served: the first registry entry whose file does not exist
raises FileNotFoundError (returned here as the missing path). -/
def startup_check (fsExists : List Nat → Bool) : Except (List Nat) Unit :=
  match VIDEO_MAPPING.find? (fun p => !fsExists p.2) with
  | some p => Except.error p.2
  | none => Except.ok ()

/-- Modelled from the spec: audio decoding and channel downmix are not in
src/main.py (process_audio delegates them to the external transformers ASR
pipeline applied to the temporary file). Per the spec, interleaved samples
are grouped into frames of channel_count consecutive samples. -/
def chunks (c : Nat) (l : List Int) : List (List Int) :=
  if h : l = [] ∨ c = 0 then [] else l.take c :: chunks c (l.drop c)
termination_by l.length
decreasing_by
  have hl : l ≠ [] := fun he => h (Or.inl he)
  have hc : c ≠ 0 := fun he => h (Or.inr he)
  have hp : 0 < l.length := List.length_pos.mpr hl
  simp only [List.length_drop]
  omega

/-- Modelled from the spec: the average of the sample values of one frame. -/
def frameAverage (fr : List Int) : ℚ := (fr.sum : ℚ) / (fr.length : ℚ)

/-- Modelled from the spec: multi-channel audio is converted to mono by
averaging the sample values of all channels at each time index
(channel-interleaving-aware). -/
def downmixMono (channelCount : Nat) (samples : List Int) : List ℚ :=
  (chunks channelCount samples).map frameAverage

/-- Interleaving of a left and a right channel into a stereo sample stream. -/
def interleave : List Int → List Int → List Int
  | [], _ => []
  | _ :: _, [] => []
  | a :: as, b :: bs => a :: b :: interleave as bs

/-! ## Character-level facts -/

theorem isWordChar_iff (n : Nat) :
    isWordChar n = true ↔
      (48 ≤ n ∧ n ≤ 57) ∨ (65 ≤ n ∧ n ≤ 90) ∨ (97 ≤ n ∧ n ≤ 122) ∨ n = 95 ∨
        n = 233 ∨ n = 304 := by
  simp [isWordChar]
  omega

theorem isSpaceChar_iff (n : Nat) :
    isSpaceChar n = true ↔
      (9 ≤ n ∧ n ≤ 13) ∨ (28 ≤ n ∧ n ≤ 32) ∨ n = 133 ∨ n = 160 ∨ n = 5760 ∨
        (8192 ≤ n ∧ n ≤ 8202) ∨ n = 8232 ∨ n = 8233 ∨ n = 8239 ∨ n = 8287 ∨
        n = 12288 := by
  simp [isSpaceChar]
  omega

theorem pyLowerChar_fixed (n : Nat) (h1 : ¬(65 ≤ n ∧ n ≤ 90)) (h2 : n ≠ 304) :
    pyLowerChar n = [n] := by
  unfold pyLowerChar
  rw [if_neg h1, if_neg h2]

theorem pyLowerChar_ascii_keep (m n : Nat) (hm : m < 128)
    (hk : (isWordChar m || isSpaceChar m) = true)
    (hnm : n ∈ pyLowerChar m) (hs : isSpaceChar n = false) :
    isWordChar n = true ∧ isSpaceChar n = false ∧ pyLowerChar n = [n] ∧ n < 128 := by
  by_cases h : 65 ≤ m ∧ m ≤ 90
  · have hl : pyLowerChar m = [m + 32] := if_pos h
    rw [hl, List.mem_singleton] at hnm
    subst hnm
    refine ⟨?_, hs, pyLowerChar_fixed _ (by omega) (by omega), by omega⟩
    rw [isWordChar_iff]
    omega
  · have hl : pyLowerChar m = [m] := pyLowerChar_fixed m h (by omega)
    rw [hl, List.mem_singleton] at hnm
    subst hnm
    have hw : isWordChar n = true := by
      rw [Bool.or_eq_true] at hk
      rcases hk with hw | hsp
      · exact hw
      · rw [hsp] at hs; cases hs
    exact ⟨hw, hs, pyLowerChar_fixed n h (by omega), hm⟩

/-! ## List helpers -/

theorem dropWhile_eq_nil_of_all {α : Type} (p : α → Bool) (l : List α)
    (h : ∀ a ∈ l, p a = true) : l.dropWhile p = [] := by
  induction l with
  | nil => rfl
  | cons a t ih =>
    rw [List.dropWhile_cons, h a (List.mem_cons_self a t)]
    exact ih fun x hx => h x (List.mem_cons_of_mem a hx)

theorem dropWhile_eq_self_of_none {α : Type} (p : α → Bool) (l : List α)
    (h : ∀ a ∈ l, p a = false) : l.dropWhile p = l := by
  cases l with
  | nil => rfl
  | cons a t =>
    rw [List.dropWhile_cons, h a (List.mem_cons_self a t)]
    simp

theorem takeWhile_eq_self_of_all {α : Type} (p : α → Bool) (l : List α)
    (h : ∀ a ∈ l, p a = true) : l.takeWhile p = l := by
  induction l with
  | nil => rfl
  | cons a t ih =>
    rw [List.takeWhile_cons, h a (List.mem_cons_self a t)]
    simp [ih fun x hx => h x (List.mem_cons_of_mem a hx)]

theorem flatMap_singleton_of_fix (f : Nat → List Nat) (l : List Nat)
    (h : ∀ a ∈ l, f a = [a]) : l.flatMap f = l := by
  induction l with
  | nil => rfl
  | cons a t ih =>
    rw [List.flatMap_cons, h a (List.mem_cons_self a t),
      ih fun x hx => h x (List.mem_cons_of_mem a hx)]
    rfl

theorem filter_eq_self_of_all {α : Type} (p : α → Bool) (l : List α)
    (h : ∀ a ∈ l, p a = true) : l.filter p = l :=
  List.filter_eq_self.mpr h

theorem mem_pyStrip (l : List Nat) (a : Nat) (h : a ∈ pyStrip l) : a ∈ l := by
  unfold pyStrip at h
  rw [List.mem_reverse] at h
  have h2 := (List.dropWhile_sublist isSpaceChar).subset h
  rw [List.mem_reverse] at h2
  exact (List.dropWhile_sublist isSpaceChar).subset h2

theorem pyStrip_eq_self (l : List Nat) (h : ∀ a ∈ l, isSpaceChar a = false) :
    pyStrip l = l := by
  unfold pyStrip
  rw [dropWhile_eq_self_of_none _ _ h,
    dropWhile_eq_self_of_none _ _ fun a ha => h a (List.mem_reverse.mp ha),
    List.reverse_reverse]

theorem pySplitFirst_eq_self (l : List Nat) (h : ∀ a ∈ l, isSpaceChar a = false) :
    pySplitFirst l = l := by
  unfold pySplitFirst
  rw [dropWhile_eq_self_of_none _ _ h]
  exact takeWhile_eq_self_of_all _ _ fun a ha => by rw [h a ha]; rfl

/-! ## Structure of clean_text output -/

theorem mem_clean_text_ascii (s : List Nat) (hascii : ∀ n ∈ s, n < 128) :
    ∀ n ∈ clean_text s,
      isWordChar n = true ∧ isSpaceChar n = false ∧ pyLowerChar n = [n] ∧ n < 128 := by
  intro n hn
  simp only [clean_text] at hn
  split at hn
  · cases hn
  · unfold pySplitFirst at hn
    have hs0 := List.mem_takeWhile_imp hn
    have hs2 : isSpaceChar n = false := by
      cases h : isSpaceChar n
      · rfl
      · simp [h] at hs0
    have hmem : n ∈ (pyStrip (s.filter fun k => isWordChar k || isSpaceChar k)).flatMap
        pyLowerChar := by
      have h1 := (List.takeWhile_sublist (fun k => !isSpaceChar k)).subset hn
      exact (List.dropWhile_sublist isSpaceChar).subset h1
    rw [List.mem_flatMap] at hmem
    obtain ⟨m, hm, hnm⟩ := hmem
    have hmf := mem_pyStrip _ m hm
    have hk : (isWordChar m || isSpaceChar m) = true := (List.mem_filter.mp hmf).2
    have hm128 : m < 128 := hascii m (List.mem_filter.mp hmf).1
    exact pyLowerChar_ascii_keep m n hm128 hk hnm hs2

theorem clean_text_fixed (t : List Nat)
    (h : ∀ n ∈ t, isWordChar n = true ∧ isSpaceChar n = false ∧ pyLowerChar n = [n]) :
    clean_text t = t := by
  have hs : ∀ a ∈ t, isSpaceChar a = false := fun a ha => (h a ha).2.1
  have h1 : (t.filter fun n => isWordChar n || isSpaceChar n) = t :=
    filter_eq_self_of_all _ _ fun a ha => by rw [(h a ha).1]; rfl
  simp only [clean_text]
  rw [h1, pyStrip_eq_self t hs, flatMap_singleton_of_fix _ _ fun a ha => (h a ha).2.2]
  cases t with
  | nil => rfl
  | cons a t =>
    rw [if_neg (by simp)]
    exact pySplitFirst_eq_self _ hs

theorem clean_text_all_space (s : List Nat) (h : ∀ n ∈ s, isSpaceChar n = true) :
    clean_text s = [] := by
  simp only [clean_text]
  have h1 : ((s.filter fun n => isWordChar n || isSpaceChar n).dropWhile isSpaceChar) = [] :=
    dropWhile_eq_nil_of_all _ _ fun a ha => h a (List.mem_filter.mp ha).1
  unfold pyStrip
  rw [h1]
  rfl

/-! ## Registry lookup facts -/

theorem dictLookup_isSome (t : List Nat) (l : List (List Nat × List Nat)) :
    (dictLookup t l).isSome = true ↔ t ∈ l.map Prod.fst := by
  induction l with
  | nil => simp [dictLookup]
  | cons p rest ih =>
    simp only [dictLookup, List.map_cons, List.mem_cons]
    split
    · simp_all
    · rw [ih]
      constructor
      · exact Or.inr
      · rintro (hp | hp)
        · exact absurd hp.symm (by assumption)
        · exact hp

theorem dictLookup_mem (t path : List Nat) (l : List (List Nat × List Nat))
    (h : dictLookup t l = some path) : ∃ p ∈ l, p.2 = path := by
  induction l with
  | nil => cases h
  | cons q rest ih =>
    rw [dictLookup] at h
    split at h
    · exact ⟨q, List.mem_cons_self q rest, by injection h⟩
    · obtain ⟨p, hp, he⟩ := ih h
      exact ⟨p, List.mem_cons_of_mem q hp, he⟩

/-! ## The claims -/

/-- Claim C1 counterexample: normalization is not idempotent over all
strings. On the one-character input U+0130 (capital I with dot above), the
first pass keeps the letter (it is a word character) and lowercases it to
U+0069 U+0307 (i followed by combining dot above); a second pass strips
U+0307, which is neither a word character nor whitespace, leaving just i. -/
theorem clean_text_not_idempotent :
    clean_text (clean_text (encode "İ")) ≠ clean_text (encode "İ")
    ∧ clean_text (encode "İ") = [105, 775]
    ∧ clean_text (clean_text (encode "İ")) = [105] := by
  decide

/-- Claim C1 amended: normalization is idempotent on every string whose
code points are all ASCII (below 128): clean_text (clean_text s) =
clean_text s, because there every output character is a word character
fixed by lowercasing. Over full Unicode, idempotence fails, since
lowercasing U+0130 introduces the non-word code point U+0307. -/
theorem clean_text_idempotent_ascii (s : List Nat) (h : ∀ n ∈ s, n < 128) :
    clean_text (clean_text s) = clean_text s :=
  clean_text_fixed (clean_text s) fun n hn =>
    ⟨(mem_clean_text_ascii s h n hn).1, (mem_clean_text_ascii s h n hn).2.1,
      (mem_clean_text_ascii s h n hn).2.2.1⟩

/-- Witness for the amended claim C1 at a concrete ASCII input. -/
theorem clean_text_idempotent_ascii_witness :
    clean_text (clean_text (encode "Hello WORLD")) = clean_text (encode "Hello WORLD") :=
  clean_text_idempotent_ascii (encode "Hello WORLD") (by decide)

/-- Claim C9 counterexample: the normalizer output is not always a
punctuation-free word made of word characters. On the input U+0130 the
output is i followed by U+0307, and U+0307 is a code point the normalizer
itself classifies as neither word character nor whitespace — fed back in,
it is stripped as a symbol. -/
theorem clean_text_output_keeps_symbol :
    clean_text (encode "İ") = [105, 775]
    ∧ isWordChar 775 = false ∧ isSpaceChar 775 = false
    ∧ clean_text [775] = [] := by
  decide

/-- Claim C9 amended: for every ASCII input string, clean_text returns a
single word of word characters only (no punctuation or symbol characters),
with no whitespace and with every character a fixed point of lowercasing;
an input consisting only of whitespace (in particular the empty input)
yields the empty token without error; and a multi-word utterance keeps
only its first token, as on the concrete input "Hello, world!". Over full
Unicode the word-character conjunct fails, since lowercasing U+0130
introduces U+0307 into the output. -/
theorem clean_text_canonical_token_ascii (s : List Nat) (h : ∀ n ∈ s, n < 128) :
    (∀ n ∈ clean_text s,
        isWordChar n = true ∧ isSpaceChar n = false ∧ pyLowerChar n = [n] ∧ n < 128)
    ∧ ((∀ n ∈ s, isSpaceChar n = true) → clean_text s = [])
    ∧ clean_text (encode "Hello, world!") = encode "hello" :=
  ⟨mem_clean_text_ascii s h, clean_text_all_space s, by decide⟩

/-- Witness for the amended claim C9 at concrete inputs: the code point of
y in the output of clean_text on "Yes!", and the first-token example. -/
theorem clean_text_canonical_token_ascii_witness :
    (isWordChar 121 = true ∧ isSpaceChar 121 = false ∧ pyLowerChar 121 = [121] ∧ 121 < 128)
    ∧ clean_text (encode "Hello, world!") = encode "hello" :=
  ⟨(clean_text_canonical_token_ascii (encode "Yes!") (by decide)).1 121 (by decide),
    (clean_text_canonical_token_ascii (encode "Yes!") (by decide)).2.2⟩

/-- Claim C2: a token resolves against VIDEO_MAPPING exactly when it is
literally one of the registry keys, and the token "yess" does not resolve
to the entry "yes" (it does not resolve at all): resolution is exact string
equality with no case folding or fuzzy matching. -/
theorem resolve_exact_match_only (t : List Nat) :
    ((resolveCommand t).isSome = true ↔ t ∈ VIDEO_MAPPING.map Prod.fst)
    ∧ resolveCommand (encode "yess") = none :=
  ⟨dictLookup_isSome t VIDEO_MAPPING, by decide⟩

/-- Claim C3 counterexample: with a transcriber that returns the empty text
(silence), the pipeline displays nothing at all: the empty token is falsy,
show_results is never invoked, and no Unmatched outcome with available
tokens is exposed. -/
theorem silence_displays_nothing :
    displayResults (process_audio (fun _ => TranscribeOutcome.ok []) [7]).result = none := by
  decide

/-- Claim C3 amended: when the transcribed text normalizes to the empty
token, main skips show_results entirely (nothing is displayed, no list of
available tokens); the Unmatched outcome carrying the available tokens
hello, yes, no arises exactly for a non-empty token that is not a registry
key. -/
theorem empty_token_skips_show_results (bytes tx t : List Nat)
    (htx : clean_text tx = []) (ht : t ≠ []) (hres : resolveCommand t = none) :
    displayResults (process_audio (fun _ => TranscribeOutcome.ok tx) bytes).result = none
    ∧ displayResults (some t) =
        some (ShowOutcome.unmatched t [encode "hello", encode "yes", encode "no"]) := by
  constructor
  · simp [process_audio, displayResults, htx]
  · have hne : t.isEmpty = false := by
      cases t with
      | nil => exact absurd rfl ht
      | cons a t => rfl
    simp [displayResults, hne, show_results, hres, VIDEO_MAPPING]

theorem empty_token_skips_show_results_witness :
    displayResults (process_audio (fun _ => TranscribeOutcome.ok (encode " ,. "))
        [1]).result = none
    ∧ displayResults (some (encode "maybe")) =
        some (ShowOutcome.unmatched (encode "maybe")
          [encode "hello", encode "yes", encode "no"]) :=
  empty_token_skips_show_results [1] (encode " ,. ") (encode "maybe")
    (by decide) (by decide) (by decide)

/-- Claim C4 counterexample: on empty input bytes the model pipeline is
still invoked (the bytes are written to a temporary file and the pipeline
is called on it before any decoding happens), contradicting the claim that
no call reaches the transcription service for malformed or empty input. -/
theorem model_invoked_on_empty_input :
    (process_audio (fun _ => TranscribeOutcome.err) []).modelInvoked = true := by
  decide

/-- Claim C4 amended: empty or malformed audio is not rejected before
transcription: process_audio invokes the model pipeline on the request, the
failure surfaces as an exception inside that call, the blanket handler
returns None, and consequently nothing is displayed; there is no distinct
DecodeError value in the code. -/
theorem malformed_input_handled (bytes : List Nat)
    (transcribe : List Nat → TranscribeOutcome)
    (h : transcribe bytes = TranscribeOutcome.err) :
    (process_audio transcribe bytes).modelInvoked = true
    ∧ (process_audio transcribe bytes).result = none
    ∧ displayResults (process_audio transcribe bytes).result = none := by
  refine ⟨rfl, ?_, ?_⟩ <;> simp [process_audio, displayResults, h]

theorem malformed_input_handled_witness :
    (process_audio (fun _ => TranscribeOutcome.err) []).modelInvoked = true
    ∧ (process_audio (fun _ => TranscribeOutcome.err) []).result = none
    ∧ displayResults (process_audio (fun _ => TranscribeOutcome.err) []).result = none :=
  malformed_input_handled [] (fun _ => TranscribeOutcome.err) rfl

/-- Claim C6 counterexample: model loading failure is not fatal for the
process lifetime. After a failed load (the run is stopped and nothing is
cached), a later request runs the loader again and obtains a handle with no
process restart; so loading is retried and the service does not stay
unavailable. -/
theorem model_load_retried_after_failure :
    (load_whisper_model LoadOutcome.fail { cached := none }).1 = RunResult.stopped
    ∧ (load_whisper_model (LoadOutcome.ok 7)
        (load_whisper_model LoadOutcome.fail { cached := none }).2).1 = RunResult.handle 7 := by
  decide

/-- Claim C6 amended: a load failure shows an error and halts only the
current run, and it is not cached, so a later request re-runs the loader
and may succeed without a process restart; a successful handle is cached
and every later call returns it without running the constructor again. -/
theorem model_load_failure_uncached (n : Nat) :
    (load_whisper_model LoadOutcome.fail { cached := none }).1 = RunResult.stopped
    ∧ (load_whisper_model LoadOutcome.fail { cached := none }).2.cached = none
    ∧ (load_whisper_model (LoadOutcome.ok n) { cached := none }).1 = RunResult.handle n
    ∧ (∀ c : LoadOutcome, load_whisper_model c { cached := some n } =
        (RunResult.handle n, { cached := some n })) :=
  ⟨rfl, rfl, rfl, fun _ => rfl⟩

/-- Claim C7: the import-time loop checks every VIDEO_MAPPING entry, so the
check succeeds exactly when every referenced resource exists, it fails fast
(with the first missing path) before any request is served otherwise, and
after a successful check every path a token can resolve to mid-run exists. -/
theorem startup_check_fail_fast (fsExists : List Nat → Bool) :
    (startup_check fsExists = Except.ok () ↔ ∀ p ∈ VIDEO_MAPPING, fsExists p.2 = true)
    ∧ (startup_check fsExists = Except.ok () →
        ∀ t path, resolveCommand t = some path → fsExists path = true) := by
  have key : VIDEO_MAPPING.find? (fun p => !fsExists p.2) = none ↔
      ∀ p ∈ VIDEO_MAPPING, fsExists p.2 = true := by
    rw [List.find?_eq_none]
    constructor
    · intro hf p hp
      have := hf p hp
      simpa using this
    · intro hall p hp
      simp [hall p hp]
  have hiff : startup_check fsExists = Except.ok () ↔
      ∀ p ∈ VIDEO_MAPPING, fsExists p.2 = true := by
    rw [← key]
    unfold startup_check
    rcases hf : VIDEO_MAPPING.find? (fun p => !fsExists p.2) with _ | q <;> simp [hf]
  refine ⟨hiff, fun hok t path hres => ?_⟩
  obtain ⟨p, hp, he⟩ := dictLookup_mem t path VIDEO_MAPPING hres
  rw [← he]
  exact hiff.mp hok p hp

/-- Claim C10: when a truthy recording and an upload are both supplied in
one run, both are processed in that order and the final result_text is the
one computed from the uploaded file, overwriting the recording result
before results are shown. -/
theorem upload_overwrites_recording (rb ub : List Nat) (hrb : rb ≠ [])
    (transcribe : List Nat → TranscribeOutcome) :
    (main_process (some rb) (some ub) transcribe).1 = [Origin.recording, Origin.upload]
    ∧ (main_process (some rb) (some ub) transcribe).2 =
        (process_audio transcribe ub).result := by
  have hne : rb.isEmpty = false := by
    cases rb with
    | nil => exact absurd rfl hrb
    | cons a t => rfl
  constructor <;> simp [main_process, hne]

theorem upload_overwrites_recording_witness :
    (main_process (some [1]) (some [2]) (fun _ => TranscribeOutcome.ok (encode "yes"))).1
      = [Origin.recording, Origin.upload]
    ∧ (main_process (some [1]) (some [2]) (fun _ => TranscribeOutcome.ok (encode "yes"))).2
      = (process_audio (fun _ => TranscribeOutcome.ok (encode "yes")) [2]).result :=
  upload_overwrites_recording [1] [2] (by decide) (fun _ => TranscribeOutcome.ok (encode "yes"))

theorem chunks_cons_cons (a b : Int) (t : List Int) :
    chunks 2 (a :: b :: t) = [a, b] :: chunks 2 t := by
  rw [chunks]
  simp

theorem frameAverage_pair (a b : Int) : frameAverage [a, b] = ((a : ℚ) + (b : ℚ)) / 2 := by
  simp [frameAverage]

/-- Claim C5: the downmix modelled from the spec converts a stereo clip to
mono by averaging the two channel samples at each time index; in particular
the interleaved stereo stream of left and right channels of equal length
maps to the pointwise averages. -/
theorem stereo_downmix_average (L R : List Int) (h : L.length = R.length) :
    downmixMono 2 (interleave L R) =
      (L.zip R).map fun p => ((p.1 : ℚ) + (p.2 : ℚ)) / 2 := by
  induction L generalizing R with
  | nil =>
    cases R with
    | nil =>
      simp only [downmixMono, interleave]
      rw [chunks]
      simp
    | cons b bs => cases h
  | cons a as ih =>
    cases R with
    | nil => cases h
    | cons b bs =>
      have hlen : as.length = bs.length := by
        simpa using h
      simp only [interleave, downmixMono, chunks_cons_cons, List.map_cons, List.zip_cons_cons]
      refine congrArg₂ List.cons (frameAverage_pair a b) ?_
      simpa [downmixMono] using ih bs hlen

/-- Witness for claim C5: left channel [10, 20] and right channel [30, 40]
produce the mono samples [20, 30]. -/
theorem stereo_downmix_average_witness :
    downmixMono 2 (interleave [10, 20] [30, 40]) = [20, 30] := by
  rw [stereo_downmix_average [10, 20] [30, 40] rfl]
  norm_num [List.zip]
